import Mathlib

/-!
Shallow embedding of the caption stabilization and narration-scheduling core of
the visionapp repository: the text normalizer and similarity scorer, the Update
Gate (`applyCaption`), the Speech Gate (`speakCaption`), the single-flight
acquisition loop (`analyzeOnce`), the sequence-numbered discard-and-restart
variant, and the `normalizePlugin` postprocessor.  Each definition is a direct
translation of the cited TypeScript; timestamps are `Int` (JS `Date.now()`
subtraction is exact integer arithmetic) and similarity scores are `ℚ`.
-/

namespace VisionApp

/-- The JS regex class whitespace test restricted to the ASCII whitespace
characters (space, tab, newline, carriage return, vertical tab, form feed). -/
def isWsChar (c : Char) : Bool :=
  c = ' ' || c = '\t' || c = '\n' || c = '\r' || c = '\x0b' || c = '\x0c'

/-- Membership in the JS regex class of lowercase alphanumerics `[a-z0-9]`. -/
def isLowerAlnum (c : Char) : Bool :=
  ('a' ≤ c && c ≤ 'z') || ('0' ≤ c && c ≤ '9')

/-- `s.toLowerCase()` on the ASCII fragment used by the captions. -/
def jsToLower (s : List Char) : List Char := s.map Char.toLower

/-- `.replace(/[^a-z0-9\s]/g, " ")`: every character that is neither a lowercase
alphanumeric nor whitespace becomes a space. -/
def replaceNonAlnum (s : List Char) : List Char :=
  s.map (fun c => if isLowerAlnum c || isWsChar c then c else ' ')

/-- `.replace(/\s+/g, " ")`: collapse each maximal whitespace run to one space. -/
def collapseWs : List Char → List Char
  | [] => []
  | [c] => if isWsChar c then [' '] else [c]
  | c :: d :: rest =>
    if isWsChar c && isWsChar d then collapseWs (d :: rest)
    else (if isWsChar c then ' ' else c) :: collapseWs (d :: rest)

/-- `.trim()`: drop whitespace from both ends. -/
def trimChars (s : List Char) : List Char :=
  ((s.dropWhile isWsChar).reverse.dropWhile isWsChar).reverse

/-- `normalizeText` from src/app/page.tsx lines 19-21 and src/unnamed/part_000
lines 72-74: lowercase, replace non-alphanumerics by spaces, collapse whitespace
runs, trim. -/
def normalizeText (s : String) : String :=
  String.mk (trimChars (collapseWs (replaceNonAlnum (jsToLower s.data))))

/-- `.split(" ")` on the single-space separator, keeping empty pieces exactly as
JS does; the accumulator holds the current piece reversed. -/
def splitSpace (acc : List Char) : List Char → List (List Char)
  | [] => [acc.reverse]
  | c :: rest => if c = ' ' then acc.reverse :: splitSpace [] rest else splitSpace (c :: acc) rest

/-- `new Set(...)` over the token list: collapse duplicates keeping first
occurrences (JS Set insertion order); `seen` holds the tokens already kept. -/
def dedupTokens (seen : List (List Char)) : List (List Char) → List (List Char)
  | [] => []
  | t :: rest => if t ∈ seen then dedupTokens seen rest else t :: dedupTokens (t :: seen) rest

/-- `new Set(normalizeText(x).split(" ").filter(Boolean))`: the token set of a
caption, as a duplicate-free list. -/
def tokenSet (s : String) : List (List Char) :=
  dedupTokens [] ((splitSpace [] (normalizeText s).data).filter (fun t => !t.isEmpty))

/-- The loop `let i = 0; A.forEach((w) => B.has(w) && i++)`: the number of
tokens of `A` that also belong to `B`. -/
def interCount (A B : List (List Char)) : Nat :=
  (A.filter (fun w => decide (w ∈ B))).length

/-- `similarity` from src/app/page.tsx lines 23-30 and src/unnamed/part_000
lines 76-83: 0 when either token set is empty, otherwise the Jaccard coefficient
`i / (|A| + |B| - i)` where `i` counts tokens of `A` that are also in `B`. -/
def similarity (a b : String) : ℚ :=
  if (tokenSet a).length = 0 ∨ (tokenSet b).length = 0 then 0
  else
    (interCount (tokenSet a) (tokenSet b) : ℚ) /
      (((tokenSet a).length : ℚ) + ((tokenSet b).length : ℚ) -
        (interCount (tokenSet a) (tokenSet b) : ℚ))

/-! ### Update Gate (src/app/page.tsx lines 126-144, src/unnamed/part_000 lines 167-186) -/

/-- The configured constants of the Update Gate.  src/app/page.tsx lines 13-14
set `MIN_DISPLAY_MS = 3000`, `SIMILARITY_IGNORE = 0.85`; src/unnamed/part_000
lines 67-68 set `MIN_DISPLAY_MS = 5500`, `SIMILARITY_IGNORE = 0.85`. -/
structure GateConfig where
  minDisplayMs : Int
  similarityIgnore : ℚ

/-- The constants of src/app/page.tsx lines 13-14. -/
def pageGateConfig : GateConfig := { minDisplayMs := 3000, similarityIgnore := 17/20 }

/-- The constants of src/unnamed/part_000 lines 67-68. -/
def mvpGateConfig : GateConfig := { minDisplayMs := 5500, similarityIgnore := 17/20 }

/-- The Update Gate state: `lastCaptionRef` and `lastUpdateTimeRef`. -/
structure GateState where
  lastCaption : String
  lastUpdateTime : Int
  deriving DecidableEq

/-- Fresh-session state: `useRef("")` / `useRef(0)`. -/
def freshGateState : GateState := { lastCaption := "", lastUpdateTime := 0 }

/-- `applyCaption` admission logic (src/app/page.tsx lines 126-144,
src/unnamed/part_000 lines 167-186): reject inside the minimum display window,
reject when the similarity to the last accepted caption exceeds the threshold,
otherwise accept and record the caption and timestamp.  Returns the new
Stabilization State and whether the caption was accepted. -/
def applyCaption (cfg : GateConfig) (st : GateState) (newCaption : String) (now : Int) :
    GateState × Bool :=
  if now - st.lastUpdateTime < cfg.minDisplayMs then (st, false)
  else if similarity newCaption st.lastCaption > cfg.similarityIgnore then (st, false)
  else ({ lastCaption := newCaption, lastUpdateTime := now }, true)

/-! ### Speech Gate (src/app/page.tsx lines 116-123) -/

/-- `MIN_SPEAK_GAP = 4000`, src/app/page.tsx line 15. -/
def MIN_SPEAK_GAP : Int := 4000

/-- `speakCaption` from src/app/page.tsx lines 116-123: do nothing when the
`speak` toggle is off or `speechSynthesis` is unavailable, do nothing when the
minimum speak gap has not elapsed since `lastSpeakTimeRef`, otherwise cancel any
running utterance, speak, and set `lastSpeakTimeRef` to now.  Returns the new
`lastSpeakTimeRef` value and whether the text was spoken.  The function keeps no
record of the last spoken text and computes no similarity. -/
def speakCaption (speak speechSupported : Bool) (lastSpeakTime : Int) (now : Int)
    (_text : String) : Int × Bool :=
  if !speak || !speechSupported then (lastSpeakTime, false)
  else if now - lastSpeakTime < MIN_SPEAK_GAP then (lastSpeakTime, false)
  else (now, true)

/-! ### Narrator session (src/app/page.tsx): display path plus optional speech -/

/-- The per-session mutable state touched by `applyCaption` and `speakCaption`
in src/app/page.tsx: `lastCaptionRef`, `lastUpdateTimeRef`, `lastSpeakTimeRef`,
and the displayed caption (`setCaption`). -/
structure SessionState where
  lastCaption : String
  lastUpdateTime : Int
  lastSpeakTime : Int
  displayed : String
  deriving DecidableEq

/-- One call of `applyCaption` in src/app/page.tsx lines 126-144, including its
side effects: on acceptance the displayed caption becomes the new caption (the
200 ms fade callback is modelled as immediate) and, when the `accessible`
toggle is on, `speakCaption` runs (which itself checks the `speak` toggle and
speech support).  Returns the new state and the acceptance flag. -/
def narratorStep (accessible speak speechSupported : Bool) (st : SessionState)
    (newCaption : String) (now : Int) : SessionState × Bool :=
  if now - st.lastUpdateTime < pageGateConfig.minDisplayMs then (st, false)
  else if similarity newCaption st.lastCaption > pageGateConfig.similarityIgnore then (st, false)
  else
    let st1 : SessionState :=
      { lastCaption := newCaption, lastUpdateTime := now,
        lastSpeakTime := st.lastSpeakTime, displayed := newCaption }
    if accessible then
      ({ st1 with lastSpeakTime :=
          (speakCaption speak speechSupported st1.lastSpeakTime now newCaption).1 }, true)
    else (st1, true)

/-- Feed a sequence of arriving captions with their timestamps through the
session, collecting after each step the acceptance flag and the caption on
display. -/
def runNarrator (accessible speak speechSupported : Bool) (st : SessionState) :
    List (String × Int) → List (Bool × String)
  | [] => []
  | (c, t) :: rest =>
    let r := narratorStep accessible speak speechSupported st c t
    (r.2, r.1.displayed) :: runNarrator accessible speak speechSupported r.1 rest

/-! ### Single-flight acquisition loop (src/app/page.tsx lines 147-170,
src/unnamed/part_000 lines 189-212)

`analyzeOnce` runs on a single-threaded event loop.  The code from the
`inFlightRef` test up to the `fetch` call runs without suspension, so one
attempt to start a cycle is one atomic step: when a request is in flight the
function returns immediately; otherwise it sets the flag and either finds no
frame (the `finally` clears the flag, no request leaves) or issues exactly one
request.  A later, separate step is the resolution of the outstanding request,
after which the `finally` clears the flag. -/

/-- Observable request bookkeeping of one session: the `inFlightRef` flag, the
number of unresolved outbound requests, and the total requests ever issued. -/
structure FlightState where
  inFlight : Bool
  outstanding : Nat
  issued : Nat
  deriving DecidableEq

/-- Session start: `inFlightRef = false`, no requests yet. -/
def initFlight : FlightState := { inFlight := false, outstanding := 0, issued := 0 }

/-- The two kinds of scheduler step visible to the request bookkeeping. -/
inductive FlightEvent
  | startCycle (frameReady : Bool)
  | resolve

/-- One scheduler step of `analyzeOnce`.  `startCycle`: the guard
`if (inFlightRef.current) return` makes the attempt a no-op while a request is
outstanding; with no frame the `finally` restores the flag with no request
issued; otherwise one `fetch` leaves.  `resolve`: an outstanding request
completes and the `finally` clears `inFlightRef`. -/
def flightStep (st : FlightState) : FlightEvent → FlightState
  | .startCycle frameReady =>
    if st.inFlight then st
    else if frameReady then
      { inFlight := true, outstanding := st.outstanding + 1, issued := st.issued + 1 }
    else st
  | .resolve =>
    if st.outstanding = 0 then st
    else { inFlight := false, outstanding := st.outstanding - 1, issued := st.issued }

/-- The request bookkeeping reached by a sequence of scheduler steps from
session start. -/
def flightReach (evs : List FlightEvent) : FlightState :=
  evs.foldl flightStep initFlight

/-! ### Sequence-numbered discard-and-restart loop
(src/app/api/analyze/route.ts, `Page1` variant, lines 147-189) -/

/-- `MIN_DISPLAY_MS = 3000` of the solver page. -/
def SOLVER_MIN_DISPLAY_MS : Int := 3000

/-- The solver page state: `requestIdRef`, the displayed answer (`setAnswer`)
and `lastUpdateTimeRef`. -/
structure SolverState where
  requestId : Nat
  answer : String
  lastUpdateTime : Int
  deriving DecidableEq

/-- `applyAnswer` (src/app/api/analyze/route.ts lines 148-159): inside the
minimum display window the text is dropped, otherwise it becomes the displayed
answer. -/
def applyAnswer (st : SolverState) (text : String) (now : Int) : SolverState :=
  if now - st.lastUpdateTime < SOLVER_MIN_DISPLAY_MS then st
  else { st with answer := text, lastUpdateTime := now }

/-- Events of the solver loop: `issue` is `const requestId = ++requestIdRef.current`
inside `analyzeOnce`; `respond tag text now` is the arrival of the response to
the request tagged `tag`. -/
inductive SolverEvent
  | issue
  | respond (tag : Nat) (text : String) (now : Int)

/-- One step of the solver loop.  A response is applied only when its tag equals
the latest issued id (`if (requestId !== requestIdRef.current) return`) and its
answer text is non-empty (`if (data?.answer)`). -/
def solverStep (st : SolverState) : SolverEvent → SolverState
  | .issue => { st with requestId := st.requestId + 1 }
  | .respond tag text now =>
    if tag = st.requestId then (if text = "" then st else applyAnswer st text now) else st

/-- The solver state after a sequence of events. -/
def runSolver (st : SolverState) (evs : List SolverEvent) : SolverState :=
  evs.foldl solverStep st

/-! ### Error handling of the MVP acquisition loop
(src/unnamed/part_000 lines 189-219) -/

/-- The per-session state that `analyzeOnce` of src/unnamed/part_000 touches,
plus the `running` flag the loop checks. -/
structure MvpState where
  lastCaption : String
  lastUpdateTime : Int
  displayed : String
  error : Option String
  running : Bool
  deriving DecidableEq

/-- The possible outcomes of one `analyzeOnce` body, as seen at its suspension
points: no frame ready (`captureFrame()` returned null), a non-success HTTP
status (`throw new Error("Vision API error")`), a rejected `fetch` (network
error), a body on which `res.json()` throws, or a parsed body carrying a
caption string (an absent caption field is the empty string, which the
`if (caption)` test skips). -/
inductive FetchOutcome
  | noFrame
  | httpError
  | netError (msg : String)
  | badJson (msg : String)
  | ok (caption : String)

/-- Whether an outcome is a remote-call failure: the three cases that reach the
`catch (e) { setError(e.message) }` clause. -/
def isFailure : FetchOutcome → Bool
  | .httpError => true
  | .netError _ => true
  | .badJson _ => true
  | _ => false

/-- The Update Gate of src/unnamed/part_000 lines 167-186 acting on the MVP
session state (speech output is an external effect with no bearing on this
state). -/
def applyCaptionMvp (st : MvpState) (newCaption : String) (now : Int) : MvpState :=
  if now - st.lastUpdateTime < mvpGateConfig.minDisplayMs then st
  else if similarity newCaption st.lastCaption > mvpGateConfig.similarityIgnore then st
  else { st with lastCaption := newCaption, lastUpdateTime := now, displayed := newCaption }

/-- One `analyzeOnce` body of src/unnamed/part_000 lines 189-212 under a given
outcome: nothing on a missing frame, `setError(e.message)` on the three failure
outcomes, the Update Gate on a successful non-empty caption. -/
def analyzeOnceMvp (st : MvpState) (o : FetchOutcome) (now : Int) : MvpState :=
  match o with
  | .noFrame => st
  | .httpError => { st with error := some "Vision API error" }
  | .netError m => { st with error := some m }
  | .badJson m => { st with error := some m }
  | .ok c => if c = "" then st else applyCaptionMvp st c now

/-- The loop of src/unnamed/part_000 lines 214-219: while `runningRef.current`
holds, run `analyzeOnce` and proceed to the next scheduled cycle.  Each list
entry is the outcome and timestamp of one cycle. -/
def runMvpLoop (st : MvpState) : List (FetchOutcome × Int) → MvpState
  | [] => st
  | (o, t) :: rest => if st.running then runMvpLoop (analyzeOnceMvp st o t) rest else st

/-! ### The normalize plugin (src/lib/vision/plugins/base.ts lines 11-21) -/

/-- `VisionResult` of src/unnamed/part_000 (types) lines 31-34: a caption and an
optional opaque `meta` payload; an absent caption field is `none`.  `M` stands
for the payload type `Record<string, unknown>`. -/
structure VisionResult (M : Type) where
  caption : Option String
  meta : M
  deriving DecidableEq

/-- JS `String.prototype.trim` on the repository strings. -/
def jsTrim (s : String) : String := String.mk (trimChars s.data)

/-- The fixed fallback caption of src/lib/vision/plugins/base.ts line 18. -/
def fallbackCaption : String := "I couldn\x27t confidently describe this scene."

/-- The `postprocess` of `normalizePlugin` (src/lib/vision/plugins/base.ts
lines 14-20): trim `result.caption || ""`; keep the trimmed caption when it has
positive length, otherwise substitute the fallback sentence; spread the rest of
the result unchanged. -/
def normalizePost {M : Type} (r : VisionResult M) : VisionResult M :=
  let caption := jsTrim (r.caption.getD "")
  { r with caption := some (if caption.length ≠ 0 then caption else fallbackCaption) }

/-! ## Helper lemmas -/

theorem interCount_self (A : List (List Char)) : interCount A A = A.length := by
  unfold interCount
  rw [List.filter_eq_self.mpr (fun a ha => decide_eq_true ha)]

theorem tokenSet_empty : tokenSet "" = [] := by decide

theorem similarity_empty_right (a : String) : similarity a "" = 0 := by
  unfold similarity
  exact if_pos (Or.inr (by rw [tokenSet_empty]; rfl))

theorem similarity_empty_left (b : String) : similarity "" b = 0 := by
  unfold similarity
  exact if_pos (Or.inl (by rw [tokenSet_empty]; rfl))

theorem similarity_self {a : String} (h : tokenSet a ≠ []) : similarity a a = 1 := by
  have hlen : (tokenSet a).length ≠ 0 := by
    simpa [List.length_eq_zero] using h
  have hq : ((tokenSet a).length : ℚ) ≠ 0 := Nat.cast_ne_zero.mpr hlen
  unfold similarity
  rw [if_neg (by simp [hlen]), interCount_self, add_sub_cancel_right, div_self hq]

theorem similarity_eval {a b : String} {nA nB ni : Nat}
    (hA : (tokenSet a).length = nA) (hB : (tokenSet b).length = nB)
    (hi : interCount (tokenSet a) (tokenSet b) = ni)
    (hA0 : nA ≠ 0) (hB0 : nB ≠ 0) :
    similarity a b = (ni : ℚ) / ((nA : ℚ) + (nB : ℚ) - (ni : ℚ)) := by
  unfold similarity
  simp only [hA, hB, hi]
  rw [if_neg (by simp [hA0, hB0])]

theorem similarity_redcar :
    similarity "a red car is parked here" "a red car is parked" = 5/6 := by
  have hA : (tokenSet "a red car is parked here").length = 6 := by decide
  have hB : (tokenSet "a red car is parked").length = 5 := by decide
  have hi : interCount (tokenSet "a red car is parked here")
      (tokenSet "a red car is parked") = 5 := by decide
  rw [similarity_eval hA hB hi (by norm_num) (by norm_num)]
  norm_num

theorem applyCaption_reject_time {cfg : GateConfig} {st : GateState} {c : String} {now : Int}
    (h : now - st.lastUpdateTime < cfg.minDisplayMs) :
    applyCaption cfg st c now = (st, false) := by
  unfold applyCaption
  rw [if_pos h]

theorem applyCaption_reject_sim {cfg : GateConfig} {st : GateState} {c : String} {now : Int}
    (h1 : ¬ now - st.lastUpdateTime < cfg.minDisplayMs)
    (h2 : similarity c st.lastCaption > cfg.similarityIgnore) :
    applyCaption cfg st c now = (st, false) := by
  unfold applyCaption
  rw [if_neg h1, if_pos h2]

theorem applyCaption_accept {cfg : GateConfig} {st : GateState} {c : String} {now : Int}
    (h1 : ¬ now - st.lastUpdateTime < cfg.minDisplayMs)
    (h2 : ¬ similarity c st.lastCaption > cfg.similarityIgnore) :
    applyCaption cfg st c now = ({ lastCaption := c, lastUpdateTime := now }, true) := by
  unfold applyCaption
  rw [if_neg h1, if_neg h2]

theorem applyCaption_accept_time {cfg : GateConfig} {st : GateState} {c : String} {now : Int}
    (h : (applyCaption cfg st c now).2 = true) :
    (applyCaption cfg st c now).1.lastUpdateTime = now := by
  by_cases h1 : now - st.lastUpdateTime < cfg.minDisplayMs
  · rw [applyCaption_reject_time h1] at h
    exact absurd h (by simp)
  · by_cases h2 : similarity c st.lastCaption > cfg.similarityIgnore
    · rw [applyCaption_reject_sim h1 h2] at h
      exact absurd h (by simp)
    · rw [applyCaption_accept h1 h2]

theorem applyCaption_window_blocks {cfg : GateConfig} {st : GateState} {c : String} {t : Int}
    (hacc : (applyCaption cfg st c t).2 = true) {c' : String} {t' : Int}
    (hlt : t' - t < cfg.minDisplayMs) :
    (applyCaption cfg (applyCaption cfg st c t).1 c' t').2 = false := by
  have ht : (applyCaption cfg st c t).1.lastUpdateTime = t := applyCaption_accept_time hacc
  rw [applyCaption_reject_time (by rw [ht]; exact hlt)]

/-! ## Claims -/

/-- C1: for the Update Gate (`applyCaption`), a caption accepted at time `t`
blocks every caption submitted at a time `t'` with `t' - t < MIN_DISPLAY_MS`;
in particular with `MIN_DISPLAY_MS = 3000` two captions submitted 1000 ms apart
are never both accepted, regardless of the similarity threshold and of how
dissimilar their texts are. -/
theorem update_gate_min_display :
    (∀ (cfg : GateConfig) (st : GateState) (c : String) (t : Int),
      (applyCaption cfg st c t).2 = true →
      ∀ (c' : String) (t' : Int), t' - t < cfg.minDisplayMs →
        (applyCaption cfg (applyCaption cfg st c t).1 c' t').2 = false) ∧
    (∀ (θ : ℚ) (st : GateState) (c₁ c₂ : String) (t : Int),
      (applyCaption ⟨3000, θ⟩ st c₁ t).2 = true →
      (applyCaption ⟨3000, θ⟩ (applyCaption ⟨3000, θ⟩ st c₁ t).1 c₂ (t + 1000)).2 = false) := by
  constructor
  · intro cfg st c t hacc c' t' hlt
    exact applyCaption_window_blocks hacc hlt
  · intro θ st c₁ c₂ t hacc
    exact applyCaption_window_blocks hacc (show t + 1000 - t < (3000 : Int) by omega)

/-- Witness for C1 at concrete inputs: from a fresh session, "a cat" is
accepted at t = 3000 and "a dog", submitted 1000 ms later, is rejected. -/
theorem update_gate_min_display_witness :
    (applyCaption pageGateConfig freshGateState "a cat" 3000).2 = true ∧
    (applyCaption pageGateConfig
      (applyCaption pageGateConfig freshGateState "a cat" 3000).1 "a dog" 4000).2 = false := by
  have h1 : ¬ (3000 : Int) - freshGateState.lastUpdateTime < pageGateConfig.minDisplayMs := by
    show ¬ (3000 : Int) - 0 < 3000
    omega
  have h2 : ¬ similarity "a cat" freshGateState.lastCaption > pageGateConfig.similarityIgnore := by
    show ¬ similarity "a cat" "" > 17/20
    rw [similarity_empty_right]
    norm_num
  have hacc : (applyCaption pageGateConfig freshGateState "a cat" 3000).2 = true := by
    rw [applyCaption_accept h1 h2]
  refine ⟨hacc, ?_⟩
  exact update_gate_min_display.1 pageGateConfig freshGateState "a cat" 3000 hacc "a dog" 4000
    (show (4000 : Int) - 3000 < pageGateConfig.minDisplayMs from by
      show (4000 : Int) - 3000 < 3000
      omega)

/-- C2: for the Update Gate with `SIMILARITY_IGNORE = 0.85` once the minimum
display window has elapsed, a caption is accepted exactly when its similarity
to the last accepted caption is at most 0.85; concretely, after accepting
"a red car is parked", the caption "a red car is parked here" (Jaccard 5/6) is
accepted and resubmitting "a red car is parked" itself (Jaccard 1) is
rejected. -/
theorem update_gate_similarity_threshold :
    (∀ (st : GateState) (c : String) (now : Int),
      pageGateConfig.minDisplayMs ≤ now - st.lastUpdateTime →
      ((applyCaption pageGateConfig st c now).2 = true ↔
        similarity c st.lastCaption ≤ 17/20)) ∧
    (applyCaption pageGateConfig ⟨"a red car is parked", 0⟩
      "a red car is parked here" 3000).2 = true ∧
    (applyCaption pageGateConfig ⟨"a red car is parked", 0⟩
      "a red car is parked" 3000).2 = false := by
  refine ⟨?_, ?_, ?_⟩
  · intro st c now hwin
    have h1 : ¬ now - st.lastUpdateTime < pageGateConfig.minDisplayMs := not_lt.mpr hwin
    by_cases h2 : similarity c st.lastCaption > pageGateConfig.similarityIgnore
    · rw [applyCaption_reject_sim h1 h2]
      simpa using not_le.mpr h2
    · rw [applyCaption_accept h1 h2]
      simpa using not_lt.mp h2
  · have h1 : ¬ (3000 : Int) - (⟨"a red car is parked", 0⟩ : GateState).lastUpdateTime <
        pageGateConfig.minDisplayMs := by
      show ¬ (3000 : Int) - 0 < 3000
      omega
    have h2 : ¬ similarity "a red car is parked here"
        (⟨"a red car is parked", 0⟩ : GateState).lastCaption >
        pageGateConfig.similarityIgnore := by
      show ¬ similarity "a red car is parked here" "a red car is parked" > 17/20
      rw [similarity_redcar]
      norm_num
    rw [applyCaption_accept h1 h2]
  · have h1 : ¬ (3000 : Int) - (⟨"a red car is parked", 0⟩ : GateState).lastUpdateTime <
        pageGateConfig.minDisplayMs := by
      show ¬ (3000 : Int) - 0 < 3000
      omega
    have h2 : similarity "a red car is parked"
        (⟨"a red car is parked", 0⟩ : GateState).lastCaption >
        pageGateConfig.similarityIgnore := by
      show similarity "a red car is parked" "a red car is parked" > 17/20
      rw [similarity_self (show tokenSet "a red car is parked" ≠ [] from by decide)]
      norm_num
    rw [applyCaption_reject_sim h1 h2]

/-- Witness for C2 at a concrete input: with the window elapsed, acceptance of
"hello" against a fresh last caption is equivalent to its similarity being at
most 0.85. -/
theorem update_gate_similarity_threshold_witness :
    (applyCaption pageGateConfig freshGateState "hello" 3000).2 = true ↔
      similarity "hello" freshGateState.lastCaption ≤ 17/20 :=
  update_gate_similarity_threshold.1 freshGateState "hello" 3000
    (show pageGateConfig.minDisplayMs ≤ (3000 : Int) - freshGateState.lastUpdateTime from by
      show (3000 : Int) ≤ 3000 - 0
      omega)

/-- C3 counterexample: the first caption of a fresh session is NOT accepted for
every submission time and every threshold setting.  With the page constants
(`MIN_DISPLAY_MS = 3000`) a first caption submitted at `now = 1000` is rejected
by the time gate, because the sentinel `lastUpdateTimeRef = 0` makes
`now - 0 < 3000` hold; and with a negative similarity threshold the similarity
gate rejects it as well, since the similarity against the empty string is 0. -/
theorem first_caption_cex :
    (applyCaption pageGateConfig freshGateState "a cat sleeps" 1000).2 = false ∧
    (applyCaption ⟨0, -1⟩ freshGateState "a cat sleeps" 1000).2 = false := by
  constructor
  · rw [applyCaption_reject_time
      (show (1000 : Int) - freshGateState.lastUpdateTime < pageGateConfig.minDisplayMs from by
        show (1000 : Int) - 0 < 3000
        omega)]
  · rw [applyCaption_reject_sim
      (show ¬ (1000 : Int) - freshGateState.lastUpdateTime <
          (⟨0, -1⟩ : GateConfig).minDisplayMs from by
        show ¬ (1000 : Int) - 0 < 0
        omega)
      (show similarity "a cat sleeps" freshGateState.lastCaption >
          (⟨0, -1⟩ : GateConfig).similarityIgnore from by
        show similarity "a cat sleeps" "" > -1
        rw [similarity_empty_right]
        norm_num)]

/-- C3 amended: in a fresh session (empty last caption, zero timestamp) the
first submitted caption is accepted for every caption text, every configuration
with a nonnegative similarity threshold, and every submission time `now` at
least `MIN_DISPLAY_MS` after the zero sentinel (as any real `Date.now()` value
is). -/
theorem first_caption_accepted (cfg : GateConfig) (text : String) (now : Int)
    (h1 : cfg.minDisplayMs ≤ now) (h2 : 0 ≤ cfg.similarityIgnore) :
    (applyCaption cfg freshGateState text now).2 = true := by
  have ha : ¬ now - freshGateState.lastUpdateTime < cfg.minDisplayMs := by
    show ¬ now - 0 < cfg.minDisplayMs
    omega
  have hb : ¬ similarity text freshGateState.lastCaption > cfg.similarityIgnore := by
    show ¬ similarity text "" > cfg.similarityIgnore
    rw [similarity_empty_right]
    exact not_lt.mpr h2
  rw [applyCaption_accept ha hb]

/-- Witness for the amended C3: the page configuration accepts the first
caption at `now = 5000`. -/
theorem first_caption_accepted_witness :
    pageGateConfig.minDisplayMs ≤ (5000 : Int) ∧ (0 : ℚ) ≤ pageGateConfig.similarityIgnore ∧
    (applyCaption pageGateConfig freshGateState "a dog on a rug" 5000).2 = true := by
  refine ⟨?_, ?_, ?_⟩
  · show (3000 : Int) ≤ 5000
    omega
  · show (0 : ℚ) ≤ 17/20
    norm_num
  · exact first_caption_accepted pageGateConfig "a dog on a rug" 5000
      (show (3000 : Int) ≤ 5000 from by omega) (show (0 : ℚ) ≤ 17/20 from by norm_num)

/-- C8 counterexample: `similarity(a, a) = 1` fails for the non-empty string
"!": its token set is empty (no alphanumeric characters survive
normalization), so the scorer returns 0, not 1. -/
theorem similarity_self_cex :
    ("!" : String) ≠ "" ∧ similarity "!" "!" = 0 ∧ (0 : ℚ) ≠ 1 := by
  refine ⟨by decide, ?_, by norm_num⟩
  unfold similarity
  exact if_pos (Or.inl (by decide))

/-- C8 amended: `similarity(a, a) = 1` for every string `a` whose token set is
non-empty (that is, containing at least one alphanumeric character), and
`similarity("", x) = 0` for every string `x`. -/
theorem similarity_self_and_empty :
    (∀ a : String, tokenSet a ≠ [] → similarity a a = 1) ∧
    (∀ x : String, similarity "" x = 0) :=
  ⟨fun _ h => similarity_self h, similarity_empty_left⟩

/-- Witness for the amended C8 at the concrete caption "a red car". -/
theorem similarity_self_and_empty_witness :
    tokenSet "a red car" ≠ [] ∧ similarity "a red car" "a red car" = 1 :=
  ⟨by decide, similarity_self_and_empty.1 "a red car" (by decide)⟩

/-- The inductive invariant of the single-flight bookkeeping: never more than
one outstanding request, and an outstanding request implies the flag is set. -/
def FlightInv (st : FlightState) : Prop :=
  st.outstanding ≤ 1 ∧ (st.outstanding = 1 → st.inFlight = true)

theorem flightStep_inv {st : FlightState} (h : FlightInv st) (e : FlightEvent) :
    FlightInv (flightStep st e) := by
  obtain ⟨h1, h2⟩ := h
  cases e with
  | startCycle frameReady =>
    by_cases hf : st.inFlight = true
    · simp only [flightStep, hf, if_true]
      exact ⟨h1, h2⟩
    · have h0 : st.outstanding = 0 := by
        rcases Nat.eq_or_lt_of_le h1 with h | h
        · exact absurd (h2 h) hf
        · omega
      by_cases hr : frameReady = true
      · simp only [flightStep, hf, hr, if_true, if_false, Bool.false_eq_true]
        exact ⟨by simp [h0], fun _ => rfl⟩
      · simp only [flightStep, hf, hr, if_false, Bool.false_eq_true]
        exact ⟨h1, h2⟩
  | resolve =>
    by_cases h0 : st.outstanding = 0
    · simp only [flightStep, h0, if_true]
      exact ⟨h1, h2⟩
    · simp only [flightStep, h0, if_false]
      constructor
      · show st.outstanding - 1 ≤ 1
        omega
      · intro hh
        have hone : st.outstanding - 1 = 1 := hh
        exact absurd hone (by omega)

theorem flightReach_inv (evs : List FlightEvent) : FlightInv (flightReach evs) := by
  have key : ∀ st, FlightInv st → FlightInv (evs.foldl flightStep st) := by
    induction evs with
    | nil => exact fun st h => h
    | cons e rest ih => exact fun st h => ih _ (flightStep_inv h e)
  exact key initFlight ⟨by simp [initFlight], by simp [initFlight]⟩

/-- C4: single-flight invariant of the acquisition loop (`analyzeOnce`): every
state reachable from session start has at most one outstanding request to the
description service, and an attempt to start a new cycle while a request is in
flight issues zero additional requests and changes nothing at all until the
outstanding request resolves. -/
theorem single_flight_invariant :
    (∀ evs : List FlightEvent, (flightReach evs).outstanding ≤ 1) ∧
    (∀ (st : FlightState) (frameReady : Bool), st.inFlight = true →
      (flightStep st (.startCycle frameReady)).issued = st.issued ∧
      flightStep st (.startCycle frameReady) = st) := by
  constructor
  · exact fun evs => (flightReach_inv evs).1
  · intro st frameReady hf
    simp [flightStep, hf]

/-- Witness for C4 at concrete inputs: after one issuing cycle there is one
outstanding request, and a second cycle started in that state issues nothing. -/
theorem single_flight_invariant_witness :
    (flightReach [FlightEvent.startCycle true]).outstanding ≤ 1 ∧
    (flightStep ⟨true, 1, 1⟩ (FlightEvent.startCycle true)).issued = 1 :=
  ⟨single_flight_invariant.1 [FlightEvent.startCycle true],
   (single_flight_invariant.2 ⟨true, 1, 1⟩ true rfl).1⟩

/-- C5 counterexample: `speakCaption` applies no similarity test and keeps no
last-spoken caption.  With the speak toggle on and speech supported, it speaks
"a red car is parked" at t = 10000 (gap elapsed since the zero sentinel) and
then speaks the very same text again at t = 14000 (gap exactly
`MIN_SPEAK_GAP = 4000` elapsed), even though the similarity of the repeated
text to the previously spoken one is 1, which exceeds every threshold below 1
(in particular 0.85) — so the claimed similarity-based rejection does not
happen. -/
theorem speech_gate_no_similarity_cex :
    (speakCaption true true 0 10000 "a red car is parked").2 = true ∧
    (speakCaption true true 10000 14000 "a red car is parked").2 = true ∧
    similarity "a red car is parked" "a red car is parked" = 1 ∧
    ¬ similarity "a red car is parked" "a red car is parked" ≤ 17/20 := by
  refine ⟨by decide, by decide, ?_, ?_⟩
  · exact similarity_self (by decide)
  · rw [similarity_self (show tokenSet "a red car is parked" ≠ [] from by decide)]
    norm_num

/-- C5 amended: `speakCaption` rejects a text exactly when the speak toggle is
off, speech synthesis is unavailable, or `now - lastSpeakTime < MIN_SPEAK_GAP`;
otherwise it accepts and updates `lastSpeakTimeRef` to `now`.  It maintains no
`lastSpokenCaption` and performs no similarity comparison; the only state it
reads or writes is `lastSpeakTimeRef`, which is distinct from the Update Gate
state (`lastCaptionRef`, `lastUpdateTimeRef`). -/
theorem speech_gate_characterization :
    ∀ (speak speechSupported : Bool) (lastSpeakTime now : Int) (text : String),
      speakCaption speak speechSupported lastSpeakTime now text =
        if speak = true ∧ speechSupported = true ∧ MIN_SPEAK_GAP ≤ now - lastSpeakTime
        then (now, true) else (lastSpeakTime, false) := by
  intro speak speechSupported lastSpeakTime now text
  unfold speakCaption
  cases speak with
  | false => simp
  | true =>
    cases speechSupported with
    | false => simp
    | true =>
      by_cases hg : now - lastSpeakTime < MIN_SPEAK_GAP
      · simp [hg, not_le.mpr hg]
      · simp [hg, not_lt.mp hg]

/-- Equality of the display-path components of two session states: everything
except `lastSpeakTime`. -/
def dispEq (s t : SessionState) : Prop :=
  s.lastCaption = t.lastCaption ∧ s.lastUpdateTime = t.lastUpdateTime ∧ s.displayed = t.displayed

theorem narratorStep_speak_indep (accessible sup : Bool) (s t : SessionState)
    (h : dispEq s t) (c : String) (now : Int) :
    (narratorStep accessible true sup s c now).2 = (narratorStep accessible false sup t c now).2 ∧
    dispEq (narratorStep accessible true sup s c now).1
      (narratorStep accessible false sup t c now).1 := by
  obtain ⟨h1, h2, h3⟩ := h
  unfold narratorStep
  by_cases hA : now - s.lastUpdateTime < pageGateConfig.minDisplayMs
  · have hA' : now - t.lastUpdateTime < pageGateConfig.minDisplayMs := by rw [← h2]; exact hA
    rw [if_pos hA, if_pos hA']
    exact ⟨rfl, h1, h2, h3⟩
  · have hA' : ¬ now - t.lastUpdateTime < pageGateConfig.minDisplayMs := by rw [← h2]; exact hA
    rw [if_neg hA, if_neg hA']
    by_cases hB : similarity c s.lastCaption > pageGateConfig.similarityIgnore
    · have hB' : similarity c t.lastCaption > pageGateConfig.similarityIgnore := by
        rw [← h1]; exact hB
      rw [if_pos hB, if_pos hB']
      exact ⟨rfl, h1, h2, h3⟩
    · have hB' : ¬ similarity c t.lastCaption > pageGateConfig.similarityIgnore := by
        rw [← h1]; exact hB
      rw [if_neg hB, if_neg hB']
      cases accessible <;> simp [dispEq]

theorem runNarrator_dispEq (accessible sup : Bool) (inputs : List (String × Int)) :
    ∀ s t : SessionState, dispEq s t →
      runNarrator accessible true sup s inputs = runNarrator accessible false sup t inputs := by
  induction inputs with
  | nil => intro s t _; rfl
  | cons p rest ih =>
    intro s t h
    cases p with
    | mk c tm =>
      obtain ⟨hacc, hd⟩ := narratorStep_speak_indep accessible sup s t h c tm
      simp only [runNarrator]
      rw [hacc, hd.2.2, ih _ _ hd]

/-- C6: noninterference of the `speak` flag on the display path.  Two runs of
the same session on the identical sequence of captions and timestamps, one with
`speak = true` and one with `speak = false`, produce the identical sequence of
acceptance decisions and displayed captions: disabling speech never changes
whether a caption is displayed. -/
theorem speak_flag_noninterference :
    ∀ (accessible speechSupported : Bool) (st : SessionState) (inputs : List (String × Int)),
      runNarrator accessible true speechSupported st inputs =
      runNarrator accessible false speechSupported st inputs :=
  fun accessible sup st inputs => runNarrator_dispEq accessible sup inputs st st ⟨rfl, rfl, rfl⟩

theorem applyAnswer_requestId (st : SolverState) (text : String) (now : Int) :
    (applyAnswer st text now).requestId = st.requestId := by
  unfold applyAnswer
  split <;> rfl

theorem solverStep_requestId_mono (st : SolverState) (e : SolverEvent) :
    st.requestId ≤ (solverStep st e).requestId := by
  cases e with
  | issue =>
    show st.requestId ≤ st.requestId + 1
    omega
  | respond tag text now =>
    simp only [solverStep]
    by_cases h : tag = st.requestId
    · rw [if_pos h]
      by_cases ht : text = ""
      · rw [if_pos ht]
      · rw [if_neg ht, applyAnswer_requestId]
    · rw [if_neg h]

theorem runSolver_requestId_mono (evs : List SolverEvent) :
    ∀ st : SolverState, st.requestId ≤ (runSolver st evs).requestId := by
  induction evs with
  | nil => exact fun _ => le_refl _
  | cons e rest ih =>
    intro st
    exact le_trans (solverStep_requestId_mono st e) (ih (solverStep st e))

/-- C7: the discard-and-restart loop tags each request with a monotonically
increasing sequence number (`++requestIdRef.current`), applies a response only
when its tag equals the latest issued id, and therefore a response tagged `n`
that arrives at any point after the response tagged `n + 1` was applied (so the
latest id was already `n + 1` then, and ids never decrease) is discarded: it
changes nothing, in particular it does not overwrite the displayed answer. -/
theorem stale_response_discarded :
    (∀ st : SolverState, (solverStep st SolverEvent.issue).requestId = st.requestId + 1) ∧
    (∀ (st : SolverState) (tag : Nat) (text : String) (now : Int), tag ≠ st.requestId →
      solverStep st (SolverEvent.respond tag text now) = st) ∧
    (∀ (s1 : SolverState) (evs : List SolverEvent) (n : Nat) (text : String) (now : Int),
      s1.requestId = n + 1 →
      solverStep (runSolver s1 evs) (SolverEvent.respond n text now) = runSolver s1 evs) := by
  refine ⟨fun _ => rfl, ?_, ?_⟩
  · intro st tag text now h
    simp only [solverStep]
    rw [if_neg h]
  · intro s1 evs n text now h
    have hmono := runSolver_requestId_mono evs s1
    have hne : n ≠ (runSolver s1 evs).requestId := by omega
    simp only [solverStep]
    rw [if_neg hne]

/-- Witness for C7 at concrete inputs: in a state whose latest issued id is 2
(so the response tagged 2 was appliable), after one further issue, the stale
response tagged 1 is discarded and the state is unchanged. -/
theorem stale_response_discarded_witness :
    (⟨2, "the answer is B", 0⟩ : SolverState).requestId = 1 + 1 ∧
    solverStep (runSolver ⟨2, "the answer is B", 0⟩ [SolverEvent.issue])
        (SolverEvent.respond 1 "stale answer" 9000) =
      runSolver ⟨2, "the answer is B", 0⟩ [SolverEvent.issue] :=
  ⟨rfl, stale_response_discarded.2.2 ⟨2, "the answer is B", 0⟩ [SolverEvent.issue] 1
    "stale answer" 9000 rfl⟩

theorem applyCaptionMvp_running (st : MvpState) (c : String) (now : Int) :
    (applyCaptionMvp st c now).running = st.running := by
  unfold applyCaptionMvp
  split
  · rfl
  · split <;> rfl

theorem analyzeOnceMvp_running (st : MvpState) (o : FetchOutcome) (now : Int) :
    (analyzeOnceMvp st o now).running = st.running := by
  cases o with
  | noFrame => rfl
  | httpError => rfl
  | netError m => rfl
  | badJson m => rfl
  | ok c =>
    simp only [analyzeOnceMvp]
    split
    · rfl
    · exact applyCaptionMvp_running st c now

/-- C9: on every remote-call failure (network error, non-success HTTP status,
or a payload on which parsing throws) `analyzeOnce` stores a visible error
string; no outcome of a cycle ever changes the `running` flag, so the loop
proceeds to the next scheduled cycle after a failure and never terminates
itself due to a processing error — only the explicit stop (which clears
`running` outside any cycle) ends it. -/
theorem error_handling_loop :
    (∀ (st : MvpState) (o : FetchOutcome) (now : Int), isFailure o = true →
      ((analyzeOnceMvp st o now).error).isSome = true) ∧
    (∀ (st : MvpState) (o : FetchOutcome) (now : Int),
      (analyzeOnceMvp st o now).running = st.running) ∧
    (∀ (st : MvpState) (cycles : List (FetchOutcome × Int)),
      (runMvpLoop st cycles).running = st.running) ∧
    (∀ (st : MvpState) (o : FetchOutcome) (t : Int) (rest : List (FetchOutcome × Int)),
      st.running = true →
      runMvpLoop st ((o, t) :: rest) = runMvpLoop (analyzeOnceMvp st o t) rest) := by
  refine ⟨?_, analyzeOnceMvp_running, ?_, ?_⟩
  · intro st o now hfail
    cases o with
    | noFrame => exact absurd hfail (by simp [isFailure])
    | httpError => rfl
    | netError m => rfl
    | badJson m => rfl
    | ok c => exact absurd hfail (by simp [isFailure])
  · intro st cycles
    induction cycles generalizing st with
    | nil => rfl
    | cons p rest ih =>
      cases p with
      | mk o t =>
        show (if st.running = true then runMvpLoop (analyzeOnceMvp st o t) rest
          else st).running = st.running
        by_cases hr : st.running = true
        · rw [if_pos hr, ih, analyzeOnceMvp_running]
        · rw [if_neg hr]
  · intro st o t rest hr
    show (if st.running = true then runMvpLoop (analyzeOnceMvp st o t) rest else st) =
      runMvpLoop (analyzeOnceMvp st o t) rest
    rw [if_pos hr]

/-- Witness for C9 at concrete inputs: an HTTP failure in a running session
stores an error string, and the loop continues with the remaining cycles. -/
theorem error_handling_loop_witness :
    ((analyzeOnceMvp ⟨"", 0, "Looking", none, true⟩ FetchOutcome.httpError 0).error).isSome
        = true ∧
    runMvpLoop ⟨"", 0, "Looking", none, true⟩ [(FetchOutcome.httpError, 0)] =
      runMvpLoop (analyzeOnceMvp ⟨"", 0, "Looking", none, true⟩ FetchOutcome.httpError 0) [] :=
  ⟨error_handling_loop.1 ⟨"", 0, "Looking", none, true⟩ FetchOutcome.httpError 0 rfl,
   error_handling_loop.2.2.2 ⟨"", 0, "Looking", none, true⟩ FetchOutcome.httpError 0 [] rfl⟩

theorem trimChars_eq_nil_iff {l : List Char} :
    trimChars l = [] ↔ ∀ c ∈ l, isWsChar c = true := by
  unfold trimChars
  rw [List.reverse_eq_nil_iff, List.dropWhile_eq_nil_iff]
  constructor
  · intro h c hc
    have hsplit := List.takeWhile_append_dropWhile (p := isWsChar) (l := l)
    rw [← hsplit] at hc
    rcases List.mem_append.mp hc with h1 | h2
    · exact List.mem_takeWhile_imp h1
    · exact h c (List.mem_reverse.mpr h2)
  · intro h c hc
    exact h c ((List.dropWhile_sublist _).subset (List.mem_reverse.mp hc))

theorem string_mk_eq_empty_iff {l : List Char} : String.mk l = "" ↔ l = [] := by
  rw [show ("" : String) = String.mk [] from rfl]
  exact ⟨fun h => congrArg String.data h, fun h => congrArg String.mk h⟩

theorem string_length_eq_zero_iff {s : String} : s.length = 0 ↔ s = "" := by
  cases s with
  | mk data =>
    rw [string_mk_eq_empty_iff]
    simp [String.length, List.length_eq_zero]

theorem jsTrim_eq_empty_iff {s : String} :
    jsTrim s = "" ↔ ∀ c ∈ s.data, isWsChar c = true := by
  unfold jsTrim
  rw [string_mk_eq_empty_iff]
  exact trimChars_eq_nil_iff

/-- C10: the `postprocess` of `normalizePlugin` never yields an empty caption:
it leaves every field but the caption unchanged, replaces the caption by its
whitespace-trimmed value when that value is non-empty, and by the exact
fallback sentence precisely when the trimmed caption is empty — which happens
exactly when the incoming caption is absent, empty, or whitespace-only. -/
theorem normalize_plugin_postprocess :
    ∀ (M : Type) (r : VisionResult M),
      (normalizePost r).meta = r.meta ∧
      (normalizePost r).caption =
        some (if jsTrim (r.caption.getD "") = "" then fallbackCaption
              else jsTrim (r.caption.getD "")) ∧
      (jsTrim (r.caption.getD "") = "" ↔ ∀ c ∈ (r.caption.getD "").data, isWsChar c = true) ∧
      (normalizePost r).caption ≠ some "" ∧
      (normalizePost r).caption ≠ none := by
  intro M r
  refine ⟨rfl, ?_, jsTrim_eq_empty_iff, ?_, ?_⟩
  · simp only [normalizePost]
    by_cases ht : jsTrim (r.caption.getD "") = ""
    · rw [if_neg (show ¬ (jsTrim (r.caption.getD "")).length ≠ 0 from by
        rw [ht]; exact fun h => h rfl), if_pos ht]
    · rw [if_pos (fun h => ht (string_length_eq_zero_iff.mp h)), if_neg ht]
  · simp only [normalizePost]
    by_cases ht : (jsTrim (r.caption.getD "")).length ≠ 0
    · rw [if_pos ht]
      intro hc
      exact ht (by rw [Option.some_inj.mp hc]; rfl)
    · rw [if_neg ht]
      intro hc
      exact absurd (Option.some_inj.mp hc) (by decide)
  · simp only [normalizePost]
    exact Option.some_ne_none _

/-- Witness for C10 at a concrete result: a padded caption is trimmed, the
payload untouched. -/
theorem normalize_plugin_postprocess_witness :
    (normalizePost (⟨some " a cat ", 42⟩ : VisionResult Nat)).caption = some "a cat" ∧
    (normalizePost (⟨some " a cat ", 42⟩ : VisionResult Nat)).meta = 42 := by
  have h := (normalize_plugin_postprocess Nat ⟨some " a cat ", 42⟩).2.1
  have hm := (normalize_plugin_postprocess Nat ⟨some " a cat ", 42⟩).1
  constructor
  · rw [h]
    show some (if jsTrim ((some " a cat " : Option String).getD "") = "" then fallbackCaption
      else jsTrim ((some " a cat " : Option String).getD "")) = some "a cat"
    rw [show jsTrim ((some " a cat " : Option String).getD "") = "a cat" from by decide]
    rw [if_neg (by decide)]
  · exact hm

end VisionApp
